import Mathlib

/-!
Verification of the PeerLearn backend (FastAPI + MongoDB + Socket.IO).

The development shallowly embeds the route handlers and Socket.IO event
handlers of the chat, classroom, friends, notes and youtube routers.
MongoDB ObjectIds are modelled as natural numbers, collections as lists of
document structures, and each handler as a pure function from the database
state (plus the request parameters and the outcomes of external calls such
as the moderation classifier) to an HTTP or socket response together with
the new database state.  External AI/network calls are modelled by
parameters enumerating their possible outcomes, exactly as the handlers
branch on them.
-/

namespace PeerLearn

/-- MongoDB ObjectIds are modelled as natural numbers. -/
abbrev OId := Nat

/-- Result of an HTTP route handler: either a payload or an HTTP error
status code (the `HTTPException` raised by the handler). -/
inductive HttpResult (α : Type) where
  | ok (value : α)
  | error (statusCode : Nat)
  deriving Repr, DecidableEq

/-- A classroom chat message document, as inserted by the chat router.
Both insertion sites (`send_message` and the socket `handle_message`)
insert exactly the keys `room_id`, `content`, `sender_id`, `timestamp`,
`edited`, `deleted`; no `classroom_id` key is ever written to a chat
message, which we record as an `Option OId` field that insertion leaves
at `none`. -/
structure MessageDoc where
  id : OId
  room_id : OId
  classroom_id : Option OId := none
  sender_id : OId
  content : String
  timestamp : Nat
  edited : Bool
  deleted : Bool
  edited_at : Option Nat := none
  deriving Repr, DecidableEq

/-- A room document (`rooms` collection). -/
structure RoomDoc where
  id : OId
  classroom_id : OId
  name : String
  deriving Repr, DecidableEq

/-- A classroom document (`classrooms` collection). -/
structure ClassroomDoc where
  id : OId
  admin_id : OId
  members : List OId
  invite_code : Nat
  name : String
  deriving Repr, DecidableEq

/-- A user document (`users` collection), restricted to the fields the
verified handlers read. -/
structure UserDoc where
  id : OId
  friends : List OId
  deriving Repr, DecidableEq

/-- Status of a friend request. -/
inductive FriendRequestStatus where
  | pending
  | accepted
  | declined
  deriving Repr, DecidableEq

/-- A friend request document (`friend_requests` collection). -/
structure FriendRequestDoc where
  id : OId
  sender_id : OId
  receiver_id : OId
  status : FriendRequestStatus
  deriving Repr, DecidableEq

/-- The slide-generation state machine of a document AI session. -/
inductive SlidesStatus where
  | pending
  | processing
  | completed
  | failed
  deriving Repr, DecidableEq

/-- A document AI session (`document_sessions` collection), restricted to
the fields the slide-generation path reads and writes. -/
structure DocumentSessionDoc where
  id : OId
  user_id : OId
  short_summary : Option String
  detailed_summary : Option String
  slides_status : SlidesStatus
  slides_pdf_url : Option String := none
  generated_slide_images : List String := []
  deriving Repr, DecidableEq

/-- A YouTube AI session (`youtube_sessions` collection), restricted to
the fields `create_youtube_session` writes. -/
structure YouTubeSessionDoc where
  id : OId
  user_id : OId
  video_title : String
  short_summary : String
  detailed_summary : String
  deriving Repr, DecidableEq

/-- The backing MongoDB database, one list per collection. -/
structure DB where
  users : List UserDoc := []
  classrooms : List ClassroomDoc := []
  rooms : List RoomDoc := []
  messages : List MessageDoc := []
  friend_requests : List FriendRequestDoc := []
  document_sessions : List DocumentSessionDoc := []
  youtube_sessions : List YouTubeSessionDoc := []
  deriving Repr, DecidableEq

/-- `db.rooms.find_one({"_id": room_id})`. -/
def findRoom (db : DB) (room_id : OId) : Option RoomDoc :=
  db.rooms.find? (fun r => r.id == room_id)

/-- `db.classrooms.find_one({"_id": classroom_id})`. -/
def findClassroom (db : DB) (classroom_id : OId) : Option ClassroomDoc :=
  db.classrooms.find? (fun c => c.id == classroom_id)

/-- `db.messages.find_one({"_id": message_id})`. -/
def findMessage (db : DB) (message_id : OId) : Option MessageDoc :=
  db.messages.find? (fun m => m.id == message_id)

/-- `db.users.find_one({"_id": user_id})`. -/
def findUser (db : DB) (user_id : OId) : Option UserDoc :=
  db.users.find? (fun u => u.id == user_id)

/-- Mongo `$addToSet`: append the value if it is not already present. -/
def addToSet (l : List OId) (x : OId) : List OId :=
  if l.contains x then l else l ++ [x]

/-- Mongo `update_one`: apply `f` to the first document matching `p`,
leaving every other document unchanged. -/
def updateFirst {α : Type} (p : α → Bool) (f : α → α) : List α → List α
  | [] => []
  | x :: xs => if p x then f x :: xs else x :: updateFirst p f xs

/-! ### Moderation gate (`AIService.moderate_message`, ai_service.py) -/

/-- The dictionary `moderate_message` returns.  The `confidence` float is
modelled as a rational number (only the constants `0.0`, `0.5` and values
echoed from the classifier occur). -/
structure ModerationResult where
  is_appropriate : Bool
  reason : String
  confidence : ℚ
  deriving Repr, DecidableEq

/-- Outcome of the external classifier call inside `moderate_message`:
the Groq API call raises (network/API failure), or it returns text that
`json.loads` cannot parse, or it returns a parsed JSON verdict. -/
inductive ModerationCall where
  | classifierError
  | unparsableResponse
  | parsed (r : ModerationResult)
  deriving Repr, DecidableEq

/-- `AIService.moderate_message`: on an API exception it returns the
fail-open dictionary with confidence `0.0`; on a JSON decode error it
returns the fail-open dictionary with confidence `0.5`; otherwise it
returns the classifier's parsed verdict. -/
def moderate_message : ModerationCall → ModerationResult
  | .classifierError =>
      { is_appropriate := true, reason := "Moderation service unavailable", confidence := 0 }
  | .unparsableResponse =>
      { is_appropriate := true, reason := "Unable to parse moderation result", confidence := 1/2 }
  | .parsed r => r

/-! ### YouTube session creation (`create_youtube_session`, youtube.py) -/

/-- The dictionary produced by `youtube_service.process_youtube_video`,
restricted to the keys the handler copies into the session document. -/
structure VideoResult where
  title : String
  duration : Nat
  transcript : String
  short_summary : String
  detailed_summary : String
  deriving Repr, DecidableEq

/-- Outcome of `asyncio.wait_for(process_youtube_video(...), timeout=300)`:
the 300-second timeout elapses, or the result carries an "error" key, or
required keys are missing, or processing succeeds. -/
inductive PipelineOutcome where
  | timedOut
  | errorResult (message : String)
  | missingKeys (keys : List String)
  | succeeded (result : VideoResult)
  deriving Repr, DecidableEq

/-- The `timeout=300` argument of the `asyncio.wait_for` wrapping the
YouTube processing pipeline. -/
def youtube_processing_timeout_seconds : Nat := 300

/-- The body of the `try` block of `create_youtube_session`: a timeout
raises HTTP 408, an "error" key raises HTTP 400, missing keys raise
HTTP 500, otherwise the session document is inserted and returned. -/
def create_youtube_session_inner (db : DB) (current_user : UserDoc)
    (outcome : PipelineOutcome) (new_id : OId) :
    HttpResult YouTubeSessionDoc × DB :=
  match outcome with
  | .timedOut => (.error 408, db)
  | .errorResult _ => (.error 400, db)
  | .missingKeys _ => (.error 500, db)
  | .succeeded r =>
      let s : YouTubeSessionDoc :=
        { id := new_id, user_id := current_user.id, video_title := r.title,
          short_summary := r.short_summary, detailed_summary := r.detailed_summary }
      (.ok s, { db with youtube_sessions := db.youtube_sessions ++ [s] })

/-- `create_youtube_session` as observed by the caller.  The handler ends
with a blanket `except Exception` clause that raises
`HTTPException(500, "Failed to process video: ...")`.  Because FastAPI's
`HTTPException` is a subclass of `Exception`, every `HTTPException`
raised inside the `try` block (including the explicit 408 on timeout) is
caught by that clause and replaced by the 500 error. -/
def create_youtube_session (db : DB) (current_user : UserDoc)
    (outcome : PipelineOutcome) (new_id : OId) :
    HttpResult YouTubeSessionDoc × DB :=
  match create_youtube_session_inner db current_user outcome new_id with
  | (.ok s, db') => (.ok s, db')
  | (.error _, db') => (.error 500, db')

/-! ### Document slide generation (notes.py) -/

/-- Python truthiness of an optional string: `None` and `""` are falsy. -/
def truthyStr : Option String → Option String
  | some s => if s = "" then none else some s
  | none => none

/-- `session.get("detailed_summary") or session.get("short_summary")`. -/
def pickSummary (s : DocumentSessionDoc) : Option String :=
  (truthyStr s.detailed_summary).orElse (fun _ => truthyStr s.short_summary)

/-- `db.document_sessions.find_one({"_id": sid, "user_id": uid})`. -/
def findDocumentSession (db : DB) (session_id user_id : OId) :
    Option DocumentSessionDoc :=
  db.document_sessions.find? (fun s => s.id == session_id && s.user_id == user_id)

/-- The `slides_status` of a session as observed through the session
accessors (which all filter by session id and owning user). -/
def sessionStatus (db : DB) (session_id user_id : OId) : Option SlidesStatus :=
  (findDocumentSession db session_id user_id).map (fun s => s.slides_status)

/-- `POST /notes/sessions/{id}/slides` (`generate_document_slides`):
look up the session by id and owner, require a summary, then
unconditionally `$set` `slides_status` to `"processing"` and schedule the
background job. -/
def generate_document_slides (db : DB) (current_user : UserDoc)
    (session_id : OId) : HttpResult String × DB :=
  match findDocumentSession db session_id current_user.id with
  | none => (.error 404, db)
  | some s =>
      match pickSummary s with
      | none => (.error 400, db)
      | some _ =>
          let sessions := updateFirst (fun t => t.id == session_id)
            (fun t => { t with slides_status := .processing }) db.document_sessions
          (.ok "processing", { db with document_sessions := sessions })

/-- Outcome of the background slide job's external generation steps. -/
inductive SlideJobOutcome where
  | success (pdf_url : String) (image_urls : List String)
  | failure
  deriving Repr, DecidableEq

/-- `process_document_slide_generation`: the background job's only
database effects are the final `$set`: on success it stores the PDF URL,
the image URLs and `slides_status = "completed"`; on any exception it
sets `slides_status = "failed"`. -/
def process_document_slide_generation (db : DB) (session_id : OId)
    (outcome : SlideJobOutcome) : DB :=
  match outcome with
  | .success pdf imgs =>
      let finish := fun (t : DocumentSessionDoc) =>
        { t with slides_pdf_url := some pdf, generated_slide_images := imgs,
                 slides_status := SlidesStatus.completed }
      let sessions := updateFirst (fun t => t.id == session_id) finish
        db.document_sessions
      { db with document_sessions := sessions }
  | .failure =>
      let sessions := updateFirst (fun t => t.id == session_id)
        (fun t => { t with slides_status := .failed }) db.document_sessions
      { db with document_sessions := sessions }

/-- Rank of a status in the forward direction
`pending → processing → completed|failed` of the state machine. -/
def slidesStatusRank : SlidesStatus → Nat
  | .pending => 0
  | .processing => 1
  | .completed => 2
  | .failed => 2

/-! ### Real-time gateway and chat HTTP surface (chat.py) -/

/-- The Socket.IO session record bound to a connection at handshake time
(`sio.save_session` in the `connect` handler). -/
structure SioSession where
  user_id : OId
  name : String
  deriving Repr, DecidableEq

/-- What a socket event handler emits back. -/
inductive SocketReply where
  | errorEvt (message : String)
  | roomJoined (room : OId) (userName : String)
  | newMessageBroadcast (room : OId) (messageId : OId)
  deriving Repr, DecidableEq

/-- Effect of a socket event handler: the emitted reply and the database
state it leaves behind. -/
structure SocketEffect where
  reply : SocketReply
  db : DB
  deriving Repr, DecidableEq

/-- A Socket.IO broadcast performed by an HTTP handler
(`sio.emit(event, ..., room=str(room_id))`). -/
structure Broadcast where
  event : String
  room : OId
  payload_id : OId
  deriving Repr, DecidableEq

/-- Effect of a chat HTTP handler: response, resulting database state,
and the broadcasts it emitted. -/
structure HttpEffect (α : Type) where
  response : HttpResult α
  db : DB
  broadcasts : List Broadcast
  deriving Repr, DecidableEq

/-- The chat message record both insertion sites build: keys `room_id`,
`content`, `sender_id`, `timestamp`, `edited=False`, `deleted=False`. -/
def newChatMessage (new_id room_id sender_id : OId) (content : String)
    (now : Nat) : MessageDoc :=
  { id := new_id, room_id := room_id, sender_id := sender_id,
    content := content, timestamp := now, edited := false, deleted := false }

/-- Socket event `join_room` (`handle_join_room`): requires a session,
an existing room, and membership in the owning classroom; on success the
connection enters the room and `room_joined` is emitted. -/
def handle_join_room (db : DB) (session : Option SioSession)
    (room_id : OId) : SocketReply :=
  match session with
  | none => .errorEvt "Unauthorized"
  | some s =>
      match findRoom db room_id with
      | none => .errorEvt "Room not found"
      | some room =>
          match findClassroom db room.classroom_id with
          | none => .errorEvt "Access denied"
          | some classroom =>
              if classroom.members.contains s.user_id then
                .roomJoined room_id s.name
              else .errorEvt "Access denied"

/-- Socket event `send_message` (`handle_message`): after checking that
the fields are present (`not all([room_id, content])`, where `None` and
the empty string are falsy) and that the connection has a session, it
inserts the message and broadcasts `new_message` to the room.  It
performs no room-existence check, no membership check and no moderation
call. -/
def handle_message (db : DB) (session : Option SioSession)
    (room_id : Option OId) (content : Option String)
    (now new_id : Nat) : SocketEffect :=
  match room_id, content with
  | some rid, some c =>
      if c = "" then { reply := .errorEvt "Missing required fields", db := db }
      else
        match session with
        | none => { reply := .errorEvt "Unauthorized", db := db }
        | some s =>
            let msg := newChatMessage new_id rid s.user_id c now
            { reply := .newMessageBroadcast rid new_id,
              db := { db with messages := db.messages ++ [msg] } }
  | _, _ => { reply := .errorEvt "Missing required fields", db := db }

/-- The relation the Mongo cursor `sort("timestamp", -1)` sorts by:
descending timestamps. -/
def tsDesc (a b : MessageDoc) : Prop := b.timestamp ≤ a.timestamp

/-- Ascending timestamps (the order of the page finally returned). -/
def tsAsc (a b : MessageDoc) : Prop := a.timestamp ≤ b.timestamp

instance : DecidableRel tsDesc := fun a b => Nat.decLe b.timestamp a.timestamp

instance : DecidableRel tsAsc := fun a b => Nat.decLe a.timestamp b.timestamp

instance : IsTotal MessageDoc tsDesc :=
  ⟨fun a b => Nat.le_total b.timestamp a.timestamp⟩

instance : IsTrans MessageDoc tsDesc :=
  ⟨fun _ _ _ hab hbc => Nat.le_trans hbc hab⟩

/-- The filter `{"room_id": room_object_id, "deleted": False}` of the
message-listing query. -/
def eligibleMessages (db : DB) (room_id : OId) : List MessageDoc :=
  db.messages.filter (fun m => m.room_id == room_id && !m.deleted)

/-- `GET /chat/rooms/{room_id}/messages` (`get_room_messages`): room
lookup, membership check, then the non-deleted messages of the room
sorted newest-first, `skip(offset)`, `limit(limit)`, and finally
`reversed(...)` so the page is oldest-first. -/
def get_room_messages (db : DB) (current_user : UserDoc) (room_id : OId)
    (limit offset : Nat) : HttpResult (List MessageDoc) :=
  match findRoom db room_id with
  | none => .error 404
  | some room =>
      match findClassroom db room.classroom_id with
      | none => .error 403
      | some classroom =>
          if classroom.members.contains current_user.id then
            .ok (((((eligibleMessages db room_id).insertionSort tsDesc).drop
                offset).take limit).reverse)
          else .error 403

/-- `POST /chat/rooms/{room_id}/messages` (`send_message`): room lookup,
membership check, moderation gate, then insert and broadcast
`new_message` to the socket room. -/
def send_message (db : DB) (current_user : UserDoc) (room_id : OId)
    (content : String) (moderation : ModerationCall) (now new_id : Nat) :
    HttpEffect MessageDoc :=
  match findRoom db room_id with
  | none => { response := .error 404, db := db, broadcasts := [] }
  | some room =>
      match findClassroom db room.classroom_id with
      | none => { response := .error 403, db := db, broadcasts := [] }
      | some classroom =>
          if classroom.members.contains current_user.id then
            if (moderate_message moderation).is_appropriate then
              let msg := newChatMessage new_id room_id current_user.id content now
              { response := .ok msg,
                db := { db with messages := db.messages ++ [msg] },
                broadcasts := [{ event := "new_message", room := room_id,
                                 payload_id := new_id }] }
            else { response := .error 400, db := db, broadcasts := [] }
          else { response := .error 403, db := db, broadcasts := [] }

/-- `PUT /chat/messages/{message_id}` (`edit_message`): only the sender
may edit, a deleted message is rejected with 400, a truthy new content is
moderated, and the update sets the non-`None` fields plus
`edited=True, edited_at=now`, broadcasting `message_edited`. -/
def edit_message (db : DB) (current_user : UserDoc) (message_id : OId)
    (new_content : Option String) (moderation : ModerationCall)
    (now : Nat) : HttpEffect MessageDoc :=
  match findMessage db message_id with
  | none => { response := .error 404, db := db, broadcasts := [] }
  | some message =>
      if message.sender_id != current_user.id then
        { response := .error 403, db := db, broadcasts := [] }
      else if message.deleted then
        { response := .error 400, db := db, broadcasts := [] }
      else if (match new_content with | some c => c != "" | none => false)
          && !(moderate_message moderation).is_appropriate then
        { response := .error 400, db := db, broadcasts := [] }
      else
        let upd := fun (m : MessageDoc) =>
          { m with content := new_content.getD m.content,
                   edited := true, edited_at := some now }
        let messages := updateFirst (fun m => m.id == message_id) upd db.messages
        { response := .ok (upd message),
          db := { db with messages := messages },
          broadcasts := [{ event := "message_edited", room := message.room_id,
                           payload_id := message_id }] }

/-- `DELETE /chat/messages/{message_id}` (`delete_message`): only the
sender may delete, an already-deleted message is rejected with 400, and
the update sets `deleted=True`, broadcasting `message_deleted`. -/
def delete_message (db : DB) (current_user : UserDoc) (message_id : OId) :
    HttpEffect String :=
  match findMessage db message_id with
  | none => { response := .error 404, db := db, broadcasts := [] }
  | some message =>
      if message.sender_id != current_user.id then
        { response := .error 403, db := db, broadcasts := [] }
      else if message.deleted then
        { response := .error 400, db := db, broadcasts := [] }
      else
        let messages := updateFirst (fun m => m.id == message_id)
          (fun m => { m with deleted := true }) db.messages
        { response := .ok "Message deleted successfully",
          db := { db with messages := messages },
          broadcasts := [{ event := "message_deleted", room := message.room_id,
                           payload_id := message_id }] }

/-! ### Classrooms (classrooms.py) -/

/-- `POST /classrooms/` (`create_classroom`): insert a classroom whose
`admin_id` is the caller and whose `members` list is `[caller]`, then
insert the default "General" room for it.  The invite code is produced by
`generate_invite_code()` and re-drawn until unique; that external
randomness is passed in as a parameter. -/
def create_classroom (db : DB) (current_user : UserDoc) (name : String)
    (invite_code : Nat) (classroom_id general_room_id : OId) :
    HttpResult ClassroomDoc × DB :=
  let classroom : ClassroomDoc :=
    { id := classroom_id, admin_id := current_user.id,
      members := [current_user.id], invite_code := invite_code, name := name }
  let general_room : RoomDoc :=
    { id := general_room_id, classroom_id := classroom_id, name := "General" }
  (.ok classroom,
   { db with classrooms := db.classrooms ++ [classroom],
             rooms := db.rooms ++ [general_room] })

/-- `PUT /classrooms/{id}` (`update_classroom`): admin only; `$set`s the
non-`None` fields of the update (name/description/logo), never touching
`admin_id` or `members`. -/
def update_classroom (db : DB) (current_user : UserDoc)
    (classroom_id : OId) (new_name : Option String) :
    HttpResult String × DB :=
  match findClassroom db classroom_id with
  | none => (.error 404, db)
  | some classroom =>
      if classroom.admin_id != current_user.id then (.error 403, db)
      else
        let classrooms := updateFirst (fun c => c.id == classroom_id)
          (fun c => { c with name := new_name.getD c.name }) db.classrooms
        (.ok "updated", { db with classrooms := classrooms })

/-- `POST /classrooms/join/{invite_code}` (`join_classroom`): look the
classroom up by invite code, reject existing members, `$addToSet` the
caller into `members`. -/
def join_classroom (db : DB) (current_user : UserDoc) (invite_code : Nat) :
    HttpResult String × DB :=
  match db.classrooms.find? (fun c => c.invite_code == invite_code) with
  | none => (.error 404, db)
  | some classroom =>
      if classroom.members.contains current_user.id then (.error 400, db)
      else
        let classrooms := updateFirst (fun c => c.id == classroom.id)
          (fun c => { c with members := addToSet c.members current_user.id })
          db.classrooms
        (.ok "Successfully joined classroom", { db with classrooms := classrooms })

/-- `DELETE /classrooms/{id}/leave` (`leave_classroom`): the admin is
rejected with 400, a non-member with 400, otherwise the caller is
`$pull`ed out of `members`. -/
def leave_classroom (db : DB) (current_user : UserDoc)
    (classroom_id : OId) : HttpResult String × DB :=
  match findClassroom db classroom_id with
  | none => (.error 404, db)
  | some classroom =>
      if classroom.admin_id == current_user.id then (.error 400, db)
      else if !(classroom.members.contains current_user.id) then (.error 400, db)
      else
        let classrooms := updateFirst (fun c => c.id == classroom_id)
          (fun c => { c with
            members := c.members.filter (fun m => m != current_user.id) })
          db.classrooms
        (.ok "Successfully left classroom", { db with classrooms := classrooms })

/-- `POST /classrooms/{id}/add-member/{user_id}`
(`add_member_to_classroom`): admin only; the target must exist, must not
already be a member, and must be a friend of the admin; then
`$addToSet` into `members`. -/
def add_member_to_classroom (db : DB) (current_user : UserDoc)
    (classroom_id user_id : OId) : HttpResult String × DB :=
  match findClassroom db classroom_id with
  | none => (.error 404, db)
  | some classroom =>
      if classroom.admin_id != current_user.id then (.error 403, db)
      else
        match findUser db user_id with
        | none => (.error 404, db)
        | some _ =>
            if classroom.members.contains user_id then (.error 400, db)
            else if !(current_user.friends.contains user_id) then (.error 400, db)
            else
              let classrooms := updateFirst (fun c => c.id == classroom_id)
                (fun c => { c with members := addToSet c.members user_id })
                db.classrooms
              (.ok "Successfully added user to classroom",
               { db with classrooms := classrooms })

/-- `DELETE /classrooms/{id}` (`delete_classroom`): admin only; then
`rooms.delete_many({"classroom_id": oid})`,
`messages.delete_many({"classroom_id": oid})` and
`classrooms.delete_one({"_id": oid})`.  The message filter matches only
documents whose `classroom_id` field equals the id — chat messages are
inserted without any `classroom_id` key, so they never match. -/
def delete_classroom (db : DB) (current_user : UserDoc)
    (classroom_id : OId) : HttpResult String × DB :=
  match findClassroom db classroom_id with
  | none => (.error 404, db)
  | some classroom =>
      if classroom.admin_id != current_user.id then (.error 403, db)
      else
        (.ok "Classroom deleted successfully",
         { db with
             rooms := db.rooms.filter (fun r => !(r.classroom_id == classroom_id)),
             messages := db.messages.filter
               (fun m => !(m.classroom_id == some classroom_id)),
             classrooms := db.classrooms.eraseP (fun c => c.id == classroom_id) })

/-! ### Friends (friends.py) -/

/-- The lookup `accept_friend_request` performs: request id, receiver is
the caller, status pending.  (The handler's `$or` over ObjectId-typed and
string-typed receiver ids collapses to one equality here, ids being
uniformly modelled as naturals.) -/
def findAcceptableRequest (db : DB) (request_id receiver_id : OId) :
    Option FriendRequestDoc :=
  db.friend_requests.find? fun r =>
    r.id == request_id && r.receiver_id == receiver_id
      && r.status == FriendRequestStatus.pending

/-- `POST /friends/accept-request/{request_id}` (`accept_friend_request`):
mark the request accepted, then `$addToSet` the sender into the
receiver's `friends` and the receiver into the sender's `friends` (two
independent writes; the string-format fallback writes only fire when the
primary update matched no document). -/
def accept_friend_request (db : DB) (current_user : UserDoc)
    (request_id : OId) : HttpResult String × DB :=
  match findAcceptableRequest db request_id current_user.id with
  | none => (.error 404, db)
  | some friend_request =>
      let requests := updateFirst (fun r => r.id == request_id)
        (fun r => { r with status := FriendRequestStatus.accepted })
        db.friend_requests
      let users1 := updateFirst (fun u => u.id == current_user.id)
        (fun u => { u with friends := addToSet u.friends friend_request.sender_id })
        db.users
      let users2 := updateFirst (fun u => u.id == friend_request.sender_id)
        (fun u => { u with friends := addToSet u.friends current_user.id })
        users1
      (.ok "Friend request accepted successfully",
       { db with friend_requests := requests, users := users2 })

/-! ### Concrete sample data for counterexamples and witnesses -/

/-- A classroom whose admin (user 7) is its only member. -/
def demoClassroom : ClassroomDoc :=
  { id := 0, admin_id := 7, members := [7], invite_code := 111, name := "Algebra" }

/-- The default room of `demoClassroom`. -/
def demoRoom : RoomDoc := { id := 1, classroom_id := 0, name := "General" }

/-- The admin of `demoClassroom`. -/
def demoAdmin : UserDoc := { id := 7, friends := [] }

/-- A user who is not a member of `demoClassroom`. -/
def strangerUser : UserDoc := { id := 9, friends := [] }

/-- A database holding `demoClassroom` with its room and both users. -/
def demoDb : DB :=
  { users := [demoAdmin, strangerUser], classrooms := [demoClassroom],
    rooms := [demoRoom] }

/-- A chat message user 7 posted to `demoRoom`. -/
def demoMessage : MessageDoc := newChatMessage 2 1 7 "hello" 10

/-- `demoDb` after `demoMessage` was posted. -/
def demoDbWithMessage : DB := { demoDb with messages := [demoMessage] }

/-- A parsed classifier verdict flagging a message as inappropriate. -/
def flaggedVerdict : ModerationResult :=
  { is_appropriate := false, reason := "harassment", confidence := 9/10 }

/-- A document session of user 7 whose slide generation has completed. -/
def demoCompletedSession : DocumentSessionDoc :=
  { id := 3, user_id := 7, short_summary := some "s",
    detailed_summary := none, slides_status := .completed }

/-- A database holding only `demoCompletedSession`. -/
def demoDbCompleted : DB := { document_sessions := [demoCompletedSession] }

/-- A document session of user 7 whose slide generation is pending. -/
def demoPendingSession : DocumentSessionDoc :=
  { id := 4, user_id := 7, short_summary := some "sum",
    detailed_summary := none, slides_status := .pending }

/-- A database holding only `demoPendingSession`. -/
def demoDbPending : DB := { document_sessions := [demoPendingSession] }

/-- A second chat message in `demoRoom`, newer than `demoMessage`. -/
def demoMsgB : MessageDoc := newChatMessage 3 1 7 "m20" 20

/-- A third chat message in `demoRoom`, newer still. -/
def demoMsgC : MessageDoc := newChatMessage 4 1 7 "m30" 30

/-- `demoDb` with three messages of increasing timestamp in the room. -/
def demoDbThreeMessages : DB :=
  { demoDb with messages := [demoMessage, demoMsgB, demoMsgC] }

/-- A soft-deleted chat message of user 7 in `demoRoom`. -/
def demoDeletedMessage : MessageDoc :=
  { newChatMessage 5 1 7 "gone" 12 with deleted := true }

/-- `demoDb` holding the soft-deleted `demoDeletedMessage`. -/
def demoDbDeleted : DB := { demoDb with messages := [demoDeletedMessage] }

/-- A pending friend request from user 9 to user 7. -/
def demoRequest : FriendRequestDoc :=
  { id := 20, sender_id := 9, receiver_id := 7, status := .pending }

/-- A database with both users and the pending `demoRequest`. -/
def demoDbFriend : DB :=
  { users := [demoAdmin, strangerUser], friend_requests := [demoRequest] }

/-- One step of the chat subsystem: any of the four operations that can
write to the `messages` collection, applied with arbitrary parameters. -/
inductive ChatStep : DB → DB → Prop where
  | http_send (db : DB) (u : UserDoc) (rid : OId) (content : String)
      (mc : ModerationCall) (now new_id : Nat) :
      ChatStep db (send_message db u rid content mc now new_id).db
  | socket_send (db : DB) (s : Option SioSession) (rid : Option OId)
      (content : Option String) (now new_id : Nat) :
      ChatStep db (handle_message db s rid content now new_id).db
  | edit (db : DB) (u : UserDoc) (mid : OId) (nc : Option String)
      (mc : ModerationCall) (now : Nat) :
      ChatStep db (edit_message db u mid nc mc now).db
  | del (db : DB) (u : UserDoc) (mid : OId) :
      ChatStep db (delete_message db u mid).db

/-- One step of the classroom subsystem: any classroom endpoint that can
change the `classrooms` collection, applied with arbitrary parameters. -/
inductive ClassroomStep : DB → DB → Prop where
  | create (db : DB) (u : UserDoc) (nm : String) (code : Nat) (cid rid : OId) :
      ClassroomStep db (create_classroom db u nm code cid rid).2
  | update (db : DB) (u : UserDoc) (cid : OId) (nm : Option String) :
      ClassroomStep db (update_classroom db u cid nm).2
  | join (db : DB) (u : UserDoc) (code : Nat) :
      ClassroomStep db (join_classroom db u code).2
  | leave (db : DB) (u : UserDoc) (cid : OId) :
      ClassroomStep db (leave_classroom db u cid).2
  | add_member (db : DB) (u : UserDoc) (cid target : OId) :
      ClassroomStep db (add_member_to_classroom db u cid target).2
  | del (db : DB) (u : UserDoc) (cid : OId) :
      ClassroomStep db (delete_classroom db u cid).2

/-- The invariant of claim C9: every classroom's admin is a member. -/
def AdminInMembers (db : DB) : Prop :=
  ∀ c ∈ db.classrooms, c.admin_id ∈ c.members

/-! ### Generic lemmas about the persistence primitives -/

theorem find?_append_of_some {α : Type} (p : α → Bool) {l₁ : List α}
    (l₂ : List α) {a : α} (h : l₁.find? p = some a) :
    (l₁ ++ l₂).find? p = some a := by
  induction l₁ with
  | nil => simp [List.find?] at h
  | cons x xs ih =>
      by_cases hx : p x
      · rw [List.find?_cons_of_pos _ hx] at h
        rw [List.cons_append, List.find?_cons_of_pos _ hx]
        exact h
      · rw [List.find?_cons_of_neg _ hx] at h
        rw [List.cons_append, List.find?_cons_of_neg _ hx]
        exact ih h

theorem find?_updateFirst_of_disjoint {α : Type} (p q : α → Bool) (f : α → α)
    (hp : ∀ x, p (f x) = p x) (hpq : ∀ x, p x = true → q x = false) :
    ∀ l : List α, (updateFirst q f l).find? p = l.find? p := by
  intro l
  induction l with
  | nil => rfl
  | cons x xs ih =>
      by_cases hq : q x
      · have hpx : ¬ p x = true := fun hpx => by simp [hpq x hpx] at hq
        have hpfx : ¬ p (f x) = true := by rw [hp]; exact hpx
        rw [updateFirst, if_pos hq, List.find?_cons_of_neg _ hpfx,
          List.find?_cons_of_neg _ hpx]
      · rw [updateFirst, if_neg hq]
        by_cases hpx : p x
        · rw [List.find?_cons_of_pos _ hpx, List.find?_cons_of_pos _ hpx]
        · rw [List.find?_cons_of_neg _ hpx, List.find?_cons_of_neg _ hpx]
          exact ih

theorem find?_updateFirst_of_stronger {α : Type} (p q : α → Bool) (f : α → α)
    (himp : ∀ x, p x = true → q x = true) (hp : ∀ x, p (f x) = p x)
    {l : List α} {s : α} (hfq : l.find? q = some s) (hps : p s = true) :
    (updateFirst q f l).find? p = some (f s) := by
  induction l with
  | nil => simp [List.find?] at hfq
  | cons x xs ih =>
      by_cases hq : q x
      · rw [List.find?_cons_of_pos _ hq] at hfq
        injection hfq with hxs
        subst hxs
        have : p (f x) = true := by rw [hp]; exact hps
        rw [updateFirst, if_pos hq, List.find?_cons_of_pos _ this]
      · rw [List.find?_cons_of_neg _ hq] at hfq
        have hpx : ¬ p x = true := fun hpx => hq (himp x hpx)
        rw [updateFirst, if_neg hq, List.find?_cons_of_neg _ hpx]
        exact ih hfq

theorem find?_of_stronger_pred {α : Type} (p q : α → Bool)
    (himp : ∀ x, p x = true → q x = true)
    {l : List α} {s : α} (hfq : l.find? q = some s) (hps : p s = true) :
    l.find? p = some s := by
  induction l with
  | nil => simp [List.find?] at hfq
  | cons x xs ih =>
      by_cases hq : q x
      · rw [List.find?_cons_of_pos _ hq] at hfq
        cases hfq
        rw [List.find?_cons_of_pos _ hps]
      · rw [List.find?_cons_of_neg _ hq] at hfq
        have hpx : ¬ p x = true := fun hpx => hq (himp x hpx)
        rw [List.find?_cons_of_neg _ hpx]
        exact ih hfq

theorem mem_updateFirst {α : Type} {q : α → Bool} {f : α → α}
    {l : List α} {x : α} (hx : x ∈ updateFirst q f l) :
    x ∈ l ∨ ∃ y, l.find? q = some y ∧ x = f y := by
  induction l with
  | nil => simp [updateFirst] at hx
  | cons a as ih =>
      by_cases hq : q a
      · rw [updateFirst, if_pos hq] at hx
        rcases List.mem_cons.mp hx with h | h
        · exact Or.inr ⟨a, by rw [List.find?_cons_of_pos _ hq], h⟩
        · exact Or.inl (List.mem_cons_of_mem _ h)
      · rw [updateFirst, if_neg hq] at hx
        rcases List.mem_cons.mp hx with h | h
        · exact Or.inl (h ▸ List.mem_cons_self a as)
        · rcases ih h with h' | ⟨y, hy, hxy⟩
          · exact Or.inl (List.mem_cons_of_mem _ h')
          · exact Or.inr ⟨y, by rw [List.find?_cons_of_neg _ hq]; exact hy, hxy⟩

theorem mem_addToSet_self (l : List OId) (x : OId) : x ∈ addToSet l x := by
  unfold addToSet
  split
  · next h => exact List.mem_of_elem_eq_true h
  · exact List.mem_append_right _ (List.mem_singleton.mpr rfl)

theorem mem_addToSet_of_mem {l : List OId} {a : OId} (x : OId) (h : a ∈ l) :
    a ∈ addToSet l x := by
  unfold addToSet
  split
  · exact h
  · exact List.mem_append_left _ h

/-! ### Claims -/

/-- Claim C5 (code bug, evaluated at the failing input): the YouTube
pipeline is wrapped in a 300-second timeout and the handler explicitly
raises HTTP 408 when it fires, but the handler's trailing blanket
`except Exception` catches that `HTTPException` and re-raises it as
HTTP 500, so the caller observes 500, not the request-timeout status the
spec promises. -/
theorem create_youtube_session_timeout_gives_500 :
    youtube_processing_timeout_seconds = 300
    ∧ (create_youtube_session_inner demoDb demoAdmin .timedOut 5).1 = .error 408
    ∧ (create_youtube_session demoDb demoAdmin .timedOut 5).1 = .error 500
    ∧ (create_youtube_session demoDb demoAdmin .timedOut 5).1 ≠ .error 408 := by
  refine ⟨rfl, rfl, rfl, ?_⟩
  decide

/-- Claim C6 (counterexample): when the classifier's response is
unparseable JSON, `moderate_message` fails open but with confidence
`0.5`, not the `0.0` the claim states for every failure mode. -/
theorem moderation_parse_failure_confidence_half :
    (moderate_message .unparsableResponse).is_appropriate = true
    ∧ (moderate_message .unparsableResponse).confidence = 1/2
    ∧ (moderate_message .unparsableResponse).confidence ≠ 0 := by
  refine ⟨rfl, rfl, ?_⟩
  norm_num [moderate_message]

/-- Claim C6 (amended): `moderate_message` fails open in both failure
modes, returning `is_appropriate=true` with confidence `0.0` on a
classifier/network error and confidence `0.5` on an unparseable
response. -/
theorem moderate_message_fails_open :
    moderate_message .classifierError =
      { is_appropriate := true, reason := "Moderation service unavailable",
        confidence := 0 }
    ∧ moderate_message .unparsableResponse =
      { is_appropriate := true, reason := "Unable to parse moderation result",
        confidence := 1/2 } :=
  ⟨rfl, rfl⟩

/-- Claim C3 (code bug, evaluated at the failing input): deleting a
classroom removes the classroom and its rooms, but the message cleanup
filters the `messages` collection by a `classroom_id` field that chat
messages are never written with, so the room's messages survive as
orphans. -/
theorem delete_classroom_orphans_messages :
    (delete_classroom demoDbWithMessage demoAdmin 0).1 =
      .ok "Classroom deleted successfully"
    ∧ (delete_classroom demoDbWithMessage demoAdmin 0).2.classrooms = []
    ∧ (delete_classroom demoDbWithMessage demoAdmin 0).2.rooms = []
    ∧ (delete_classroom demoDbWithMessage demoAdmin 0).2.messages = [demoMessage]
    ∧ demoMessage.room_id = demoRoom.id := by
  refine ⟨rfl, ?_, ?_, ?_, rfl⟩ <;> decide

/-- Claim C4 (counterexample): a session whose slide generation has
already completed is reset to `processing` by a repeated
`POST /notes/sessions/{id}/slides`, regressing from `completed`. -/
theorem slides_status_regresses_on_repeated_request :
    sessionStatus demoDbCompleted 3 7 = some .completed
    ∧ sessionStatus (generate_document_slides demoDbCompleted demoAdmin 3).2 3 7 =
        some .processing := by
  refine ⟨rfl, ?_⟩
  decide

/-- Claim C4 (amended): within a single slide-generation run the status
moves strictly forward.  Starting from `pending`, the POST moves the
session to `processing`, and the background job's final write moves it to
`completed` on success or `failed` on failure; each step strictly
increases the forward rank, and no operation produces `pending`.  (Only a
repeated POST, which unconditionally resets to `processing`, can regress
a finished session — see the counterexample.) -/
theorem slides_single_run_forward (db : DB) (caller : UserDoc) (sid : OId)
    (s : DocumentSessionDoc) (summary pdf : String) (imgs : List String)
    (hfindId : db.document_sessions.find? (fun t => t.id == sid) = some s)
    (huser : s.user_id = caller.id)
    (hsum : pickSummary s = some summary)
    (hpending : s.slides_status = .pending) :
    sessionStatus db sid caller.id = some .pending
    ∧ sessionStatus (generate_document_slides db caller sid).2 sid caller.id =
        some .processing
    ∧ sessionStatus
        (process_document_slide_generation
          (generate_document_slides db caller sid).2 sid (.success pdf imgs))
        sid caller.id = some .completed
    ∧ sessionStatus
        (process_document_slide_generation
          (generate_document_slides db caller sid).2 sid .failure)
        sid caller.id = some .failed
    ∧ slidesStatusRank .pending < slidesStatusRank .processing
    ∧ slidesStatusRank .processing < slidesStatusRank .completed
    ∧ slidesStatusRank .processing < slidesStatusRank .failed := by
  have himp : ∀ t : DocumentSessionDoc,
      (t.id == sid && t.user_id == caller.id) = true → (t.id == sid) = true := by
    intro t h
    rw [Bool.and_eq_true] at h
    exact h.1
  have hqs : (s.id == sid) = true := by
    have h := List.find?_some hfindId
    simpa using h
  have hps : (s.id == sid && s.user_id == caller.id) = true := by
    rw [Bool.and_eq_true]
    exact ⟨hqs, by rw [huser]; exact beq_self_eq_true _⟩
  have hfindP : findDocumentSession db sid caller.id = some s :=
    find?_of_stronger_pred _ _ himp hfindId hps
  have hgen : (generate_document_slides db caller sid).2 =
      { db with document_sessions :=
          (updateFirst (fun t => t.id == sid)
            (fun t => { t with slides_status := .processing })
            db.document_sessions) } := by
    simp [generate_document_slides, hfindP, hsum]
  have h2 : findDocumentSession (generate_document_slides db caller sid).2
      sid caller.id = some { s with slides_status := .processing } := by
    rw [hgen]
    exact find?_updateFirst_of_stronger
      (fun (t : DocumentSessionDoc) => t.id == sid && t.user_id == caller.id)
      (fun (t : DocumentSessionDoc) => t.id == sid)
      (fun (t : DocumentSessionDoc) => { t with slides_status := SlidesStatus.processing })
      himp (fun x => rfl) hfindId hps
  have hq2 : ((generate_document_slides db caller sid).2.document_sessions).find?
      (fun t => t.id == sid) = some { s with slides_status := .processing } := by
    rw [hgen]
    exact find?_updateFirst_of_stronger
      (fun (t : DocumentSessionDoc) => t.id == sid)
      (fun (t : DocumentSessionDoc) => t.id == sid)
      (fun (t : DocumentSessionDoc) => { t with slides_status := SlidesStatus.processing })
      (fun _ h => h) (fun x => rfl) hfindId hqs
  have h3 : findDocumentSession
      (process_document_slide_generation
        (generate_document_slides db caller sid).2 sid (.success pdf imgs))
      sid caller.id =
      some { s with slides_pdf_url := some pdf, generated_slide_images := imgs,
                    slides_status := .completed } :=
    @find?_updateFirst_of_stronger DocumentSessionDoc
      (fun (t : DocumentSessionDoc) => t.id == sid && t.user_id == caller.id)
      (fun (t : DocumentSessionDoc) => t.id == sid)
      (fun (t : DocumentSessionDoc) => { t with slides_pdf_url := some pdf,
                                                generated_slide_images := imgs,
                                                slides_status := SlidesStatus.completed })
      himp (fun x => rfl)
      ((generate_document_slides db caller sid).2.document_sessions)
      { s with slides_status := SlidesStatus.processing }
      hq2 hps
  have h4 : findDocumentSession
      (process_document_slide_generation
        (generate_document_slides db caller sid).2 sid .failure)
      sid caller.id =
      some { s with slides_status := .failed } :=
    @find?_updateFirst_of_stronger DocumentSessionDoc
      (fun (t : DocumentSessionDoc) => t.id == sid && t.user_id == caller.id)
      (fun (t : DocumentSessionDoc) => t.id == sid)
      (fun (t : DocumentSessionDoc) => { t with slides_status := SlidesStatus.failed })
      himp (fun x => rfl)
      ((generate_document_slides db caller sid).2.document_sessions)
      { s with slides_status := SlidesStatus.processing }
      hq2 hps
  refine ⟨?_, ?_, ?_, ?_, ?_, ?_, ?_⟩
  · simp [sessionStatus, hfindP, hpending]
  · simp [sessionStatus, h2]
  · simp [sessionStatus, h3]
  · simp [sessionStatus, h4]
  · decide
  · decide
  · decide

/-- Claim C4 witness: the single-run forward progression evaluated on
the concrete pending session `demoPendingSession`. -/
theorem slides_single_run_forward_witness :
    sessionStatus demoDbPending 4 7 = some .pending
    ∧ sessionStatus (generate_document_slides demoDbPending demoAdmin 4).2 4 7 =
        some .processing
    ∧ sessionStatus
        (process_document_slide_generation
          (generate_document_slides demoDbPending demoAdmin 4).2 4
          (.success "u.pdf" ["img1"])) 4 7 = some .completed
    ∧ sessionStatus
        (process_document_slide_generation
          (generate_document_slides demoDbPending demoAdmin 4).2 4 .failure)
        4 7 = some .failed
    ∧ slidesStatusRank .pending < slidesStatusRank .processing
    ∧ slidesStatusRank .processing < slidesStatusRank .completed
    ∧ slidesStatusRank .processing < slidesStatusRank .failed :=
  slides_single_run_forward demoDbPending demoAdmin 4 demoPendingSession
    "sum" "u.pdf" ["img1"] (by decide) rfl (by decide) rfl

/-- Claim C1 (counterexample): the two chat transports are not
behaviourally identical.  For a message the classifier flags, the HTTP
endpoint rejects with 400 and writes nothing, while the socket
`send_message` handler — which never calls the moderation gate —
persists the message and broadcasts it. -/
theorem transport_moderation_divergence :
    send_message demoDb demoAdmin 1 "bad" (.parsed flaggedVerdict) 5 3 =
      { response := .error 400, db := demoDb, broadcasts := [] }
    ∧ handle_message demoDb (some { user_id := 7, name := "Ann" })
        (some 1) (some "bad") 5 3 =
      { reply := .newMessageBroadcast 1 3,
        db := { demoDb with messages := [newChatMessage 3 1 7 "bad" 5] } } := by
  refine ⟨?_, ?_⟩ <;> decide

/-- Claim C2 (amended): a non-member's HTTP message listing, HTTP
message send, and socket room-join are all rejected with 403 or a socket
`error` event and leave the database unchanged; the socket `send_message`
handler, however, performs no membership check, so a non-member with an
authenticated socket session still gets their message persisted and
broadcast. -/
theorem nonmember_room_access (db : DB) (caller : UserDoc) (rid : OId)
    (room : RoomDoc) (classroom : ClassroomDoc) (lim off : Nat)
    (content : String) (mc : ModerationCall) (now nid : Nat) (nm : String)
    (hroom : findRoom db rid = some room)
    (hcls : findClassroom db room.classroom_id = some classroom)
    (hmem : classroom.members.contains caller.id = false)
    (hcontent : content ≠ "") :
    get_room_messages db caller rid lim off = .error 403
    ∧ send_message db caller rid content mc now nid =
        { response := .error 403, db := db, broadcasts := [] }
    ∧ handle_join_room db (some { user_id := caller.id, name := nm }) rid =
        .errorEvt "Access denied"
    ∧ handle_message db (some { user_id := caller.id, name := nm })
        (some rid) (some content) now nid =
        { reply := .newMessageBroadcast rid nid,
          db := { db with messages :=
            db.messages ++ [newChatMessage nid rid caller.id content now] } } := by
  have hmem' : caller.id ∉ classroom.members := by simpa using hmem
  refine ⟨?_, ?_, ?_, ?_⟩
  · simp [get_room_messages, hroom, hcls, hmem']
  · simp [send_message, hroom, hcls, hmem']
  · simp [handle_join_room, hroom, hcls, hmem']
  · simp [handle_message, hcontent]

/-- Claim C2 witness: the amended statement applied to the concrete
non-member `strangerUser` and the room of `demoClassroom`. -/
theorem nonmember_room_access_witness :
    get_room_messages demoDb strangerUser 1 50 0 = .error 403
    ∧ send_message demoDb strangerUser 1 "hi" .classifierError 5 3 =
        { response := .error 403, db := demoDb, broadcasts := [] }
    ∧ handle_join_room demoDb
        (some { user_id := strangerUser.id, name := "Eve" }) 1 =
        .errorEvt "Access denied"
    ∧ handle_message demoDb (some { user_id := strangerUser.id, name := "Eve" })
        (some 1) (some "hi") 5 3 =
        { reply := .newMessageBroadcast 1 3,
          db := { demoDb with messages :=
            demoDb.messages ++ [newChatMessage 3 1 strangerUser.id "hi" 5] } } :=
  nonmember_room_access demoDb strangerUser 1 demoRoom demoClassroom 50 0 "hi"
    .classifierError 5 3 "Eve" (by decide) (by decide) (by decide) (by decide)

/-- Claim C1 (amended): on requests that pass both membership and
moderation the two transports persist an identical message record and
broadcast `new_message` to the same room; but the HTTP endpoint rejects
non-members (403) and flagged content (400) before any write, while the
socket handler checks neither membership nor moderation and always
persists and broadcasts once a session exists and the fields are
present. -/
theorem transport_agreement_and_divergence (db : DB) (caller : UserDoc)
    (rid : OId) (room : RoomDoc) (classroom : ClassroomDoc)
    (content : String) (mc : ModerationCall) (now nid : Nat) (nm : String)
    (hroom : findRoom db rid = some room)
    (hcls : findClassroom db room.classroom_id = some classroom)
    (hcontent : content ≠ "") :
    (classroom.members.contains caller.id = true →
      (moderate_message mc).is_appropriate = true →
      send_message db caller rid content mc now nid =
        { response := .ok (newChatMessage nid rid caller.id content now),
          db := { db with messages :=
            db.messages ++ [newChatMessage nid rid caller.id content now] },
          broadcasts := [{ event := "new_message", room := rid,
                           payload_id := nid }] })
    ∧ (classroom.members.contains caller.id = true →
      (moderate_message mc).is_appropriate = false →
      send_message db caller rid content mc now nid =
        { response := .error 400, db := db, broadcasts := [] })
    ∧ (classroom.members.contains caller.id = false →
      send_message db caller rid content mc now nid =
        { response := .error 403, db := db, broadcasts := [] })
    ∧ handle_message db (some { user_id := caller.id, name := nm })
        (some rid) (some content) now nid =
        { reply := .newMessageBroadcast rid nid,
          db := { db with messages :=
            db.messages ++ [newChatMessage nid rid caller.id content now] } } := by
  refine ⟨fun hm hmod => ?_, fun hm hmod => ?_, fun hm => ?_, ?_⟩
  · have hm' : caller.id ∈ classroom.members := by simpa using hm
    simp [send_message, hroom, hcls, hm', hmod]
  · have hm' : caller.id ∈ classroom.members := by simpa using hm
    simp [send_message, hroom, hcls, hm', hmod]
  · have hm' : caller.id ∉ classroom.members := by simpa using hm
    simp [send_message, hroom, hcls, hm']
  · simp [handle_message, hcontent]

/-- Claim C1 witness: the amended statement applied to the member
`demoAdmin` posting to the room of `demoClassroom`. -/
theorem transport_agreement_and_divergence_witness :
    (demoClassroom.members.contains demoAdmin.id = true →
      (moderate_message .classifierError).is_appropriate = true →
      send_message demoDb demoAdmin 1 "hey" .classifierError 5 3 =
        { response := .ok (newChatMessage 3 1 demoAdmin.id "hey" 5),
          db := { demoDb with messages :=
            demoDb.messages ++ [newChatMessage 3 1 demoAdmin.id "hey" 5] },
          broadcasts := [{ event := "new_message", room := 1,
                           payload_id := 3 }] })
    ∧ (demoClassroom.members.contains demoAdmin.id = true →
      (moderate_message .classifierError).is_appropriate = false →
      send_message demoDb demoAdmin 1 "hey" .classifierError 5 3 =
        { response := .error 400, db := demoDb, broadcasts := [] })
    ∧ (demoClassroom.members.contains demoAdmin.id = false →
      send_message demoDb demoAdmin 1 "hey" .classifierError 5 3 =
        { response := .error 403, db := demoDb, broadcasts := [] })
    ∧ handle_message demoDb (some { user_id := demoAdmin.id, name := "Ann" })
        (some 1) (some "hey") 5 3 =
        { reply := .newMessageBroadcast 1 3,
          db := { demoDb with messages :=
            demoDb.messages ++ [newChatMessage 3 1 demoAdmin.id "hey" 5] } } :=
  transport_agreement_and_divergence demoDb demoAdmin 1 demoRoom demoClassroom
    "hey" .classifierError 5 3 "Ann" (by decide) (by decide) (by decide)

/-- Claim C2 (counterexample): a user who is not a member of the
classroom can nevertheless persist a message into its room through the
socket `send_message` handler, which checks only that the connection is
authenticated. -/
theorem nonmember_socket_send_persists :
    demoClassroom.members.contains strangerUser.id = false
    ∧ handle_message demoDb (some { user_id := 9, name := "Eve" })
        (some 1) (some "hi") 5 3 =
      { reply := .newMessageBroadcast 1 3,
        db := { demoDb with messages := [newChatMessage 3 1 9 "hi" 5] } } := by
  refine ⟨rfl, ?_⟩
  decide

/-- Unfolding of a successful message-listing response: the page is the
reversed `limit`-window at `offset` of the descending-sorted eligible
messages. -/
theorem get_room_messages_ok_eq (db : DB) (u : UserDoc) (rid : OId)
    (lim off : Nat) (page : List MessageDoc)
    (h : get_room_messages db u rid lim off = .ok page) :
    page = ((((eligibleMessages db rid).insertionSort tsDesc).drop
      off).take lim).reverse := by
  unfold get_room_messages at h
  split at h
  · exact absurd h (by simp)
  · split at h
    · exact absurd h (by simp)
    · split at h
      · injection h with h
        exact h.symm
      · exact absurd h (by simp)

/-- Every message on a returned page is a non-deleted message of the
requested room stored in the database. -/
theorem page_mem_eligible {db : DB} {rid : OId} {lim off : Nat}
    {m : MessageDoc}
    (hm : m ∈ ((((eligibleMessages db rid).insertionSort tsDesc).drop
      off).take lim).reverse) :
    m ∈ db.messages ∧ m.room_id = rid ∧ m.deleted = false := by
  rw [List.mem_reverse] at hm
  have h1 : m ∈ (eligibleMessages db rid).insertionSort tsDesc :=
    List.mem_of_mem_drop (List.mem_of_mem_take hm)
  have h2 : m ∈ eligibleMessages db rid :=
    (List.perm_insertionSort tsDesc _).mem_iff.mp h1
  obtain ⟨hstore, hcond⟩ := List.mem_filter.mp h2
  rw [Bool.and_eq_true] at hcond
  refine ⟨hstore, ?_, ?_⟩
  · simpa using hcond.1
  · simpa using hcond.2

/-- Claim C10: `GET /chat/rooms/{room_id}/messages` returns at most
`limit` messages, all of them non-deleted stored messages of the room,
ordered by ascending timestamp, and the page is exactly the reversed
`limit`-window at `offset` of a timestamp-descending ordering of the
room's non-deleted messages (the newest messages after skipping the
`offset` newest ones). -/
theorem get_room_messages_paginates (db : DB) (caller : UserDoc)
    (rid : OId) (room : RoomDoc) (classroom : ClassroomDoc)
    (lim off : Nat) (page : List MessageDoc)
    (hroom : findRoom db rid = some room)
    (hcls : findClassroom db room.classroom_id = some classroom)
    (hmem : classroom.members.contains caller.id = true)
    (hpage : get_room_messages db caller rid lim off = .ok page) :
    page.length ≤ lim
    ∧ (∀ m ∈ page, m ∈ db.messages ∧ m.room_id = rid ∧ m.deleted = false)
    ∧ page.Pairwise tsAsc
    ∧ ∃ sortedAll : List MessageDoc,
        List.Perm sortedAll (eligibleMessages db rid)
        ∧ sortedAll.Pairwise tsDesc
        ∧ page = ((sortedAll.drop off).take lim).reverse := by
  have hpe := get_room_messages_ok_eq db caller rid lim off page hpage
  refine ⟨?_, ?_, ?_, ?_⟩
  · rw [hpe, List.length_reverse, List.length_take]
    exact Nat.min_le_left _ _
  · intro m hm
    rw [hpe] at hm
    exact page_mem_eligible hm
  · rw [hpe, List.pairwise_reverse]
    have hs : ((eligibleMessages db rid).insertionSort tsDesc).Pairwise tsDesc :=
      List.sorted_insertionSort tsDesc _
    have hsub : List.Sublist
        ((((eligibleMessages db rid).insertionSort tsDesc).drop off).take lim)
        ((eligibleMessages db rid).insertionSort tsDesc) :=
      (List.take_sublist _ _).trans (List.drop_sublist _ _)
    exact (hs.sublist hsub).imp (fun h => h)
  · exact ⟨(eligibleMessages db rid).insertionSort tsDesc,
      List.perm_insertionSort tsDesc _, List.sorted_insertionSort tsDesc _, hpe⟩

/-- Claim C10 witness: the pagination contract evaluated on a room with
three messages (timestamps 10, 20, 30), `limit 2`, `offset 1`: the page
is `[timestamp 10, timestamp 20]`. -/
theorem get_room_messages_paginates_witness :
    [demoMessage, demoMsgB].length ≤ 2
    ∧ (∀ m ∈ [demoMessage, demoMsgB],
        m ∈ demoDbThreeMessages.messages ∧ m.room_id = 1 ∧ m.deleted = false)
    ∧ [demoMessage, demoMsgB].Pairwise tsAsc
    ∧ ∃ sortedAll : List MessageDoc,
        List.Perm sortedAll (eligibleMessages demoDbThreeMessages 1)
        ∧ sortedAll.Pairwise tsDesc
        ∧ [demoMessage, demoMsgB] = ((sortedAll.drop 1).take 2).reverse :=
  get_room_messages_paginates demoDbThreeMessages demoAdmin 1 demoRoom
    demoClassroom 2 1 [demoMessage, demoMsgB]
    (by decide) (by decide) (by decide) (by decide)

/-- The HTTP send endpoint never alters an existing message document:
whatever branch it takes, a previously stored message is still found
unchanged by id. -/
theorem send_message_preserves_find (db : DB) (u : UserDoc) (rid : OId)
    (content : String) (mc : ModerationCall) (now nid : Nat)
    {mid : OId} {m : MessageDoc} (h : findMessage db mid = some m) :
    findMessage (send_message db u rid content mc now nid).db mid = some m := by
  unfold send_message
  split
  · exact h
  · split
    · exact h
    · split
      · split
        · exact find?_append_of_some _ _ h
        · exact h
      · exact h

/-- The socket send handler never alters an existing message document. -/
theorem handle_message_preserves_find (db : DB) (s : Option SioSession)
    (rid : Option OId) (content : Option String) (now nid : Nat)
    {mid : OId} {m : MessageDoc} (h : findMessage db mid = some m) :
    findMessage (handle_message db s rid content now nid).db mid = some m := by
  unfold handle_message
  split
  · split
    · exact h
    · split
      · exact h
      · exact find?_append_of_some _ _ h
  · exact h

/-- Editing cannot touch a deleted message: if the edit targets it, the
endpoint rejects before writing; if it targets another message, the
update leaves it alone. -/
theorem edit_message_preserves_deleted_find (db : DB) (u : UserDoc)
    (mid2 : OId) (nc : Option String) (mc : ModerationCall) (now : Nat)
    {mid : OId} {m : MessageDoc} (h : findMessage db mid = some m)
    (hdel : m.deleted = true) :
    findMessage (edit_message db u mid2 nc mc now).db mid = some m := by
  unfold edit_message
  split
  · exact h
  next message hfound =>
    split
    · exact h
    · split
      · exact h
      · split
        · exact h
        · next hnotdel _ =>
            by_cases hmm : mid2 = mid
            · subst hmm
              rw [h] at hfound
              injection hfound with hme
              subst hme
              exact absurd hdel hnotdel
            · show (updateFirst (fun mm => mm.id == mid2)
                  (fun (mm : MessageDoc) =>
                    { mm with content := nc.getD mm.content, edited := true,
                              edited_at := some now })
                  db.messages).find? (fun x => x.id == mid) = some m
              rw [find?_updateFirst_of_disjoint
                (fun (x : MessageDoc) => x.id == mid)
                (fun (x : MessageDoc) => x.id == mid2)
                (fun (mm : MessageDoc) =>
                  { mm with content := nc.getD mm.content, edited := true,
                            edited_at := some now })
                (fun x => rfl) ?_ db.messages]
              · exact h
              · intro x hx
                have hx' : x.id = mid := by simpa using hx
                show (x.id == mid2) = false
                rw [hx']
                exact beq_eq_false_iff_ne.mpr (fun he => hmm he.symm)

/-- Deleting cannot touch an already-deleted message either. -/
theorem delete_message_preserves_deleted_find (db : DB) (u : UserDoc)
    (mid2 : OId) {mid : OId} {m : MessageDoc}
    (h : findMessage db mid = some m) (hdel : m.deleted = true) :
    findMessage (delete_message db u mid2).db mid = some m := by
  unfold delete_message
  split
  · exact h
  next message hfound =>
    split
    · exact h
    · split
      · exact h
      · next hnotdel =>
          by_cases hmm : mid2 = mid
          · subst hmm
            rw [h] at hfound
            injection hfound with hme
            subst hme
            exact absurd hdel hnotdel
          · show (updateFirst (fun mm => mm.id == mid2)
                (fun (mm : MessageDoc) => { mm with deleted := true })
                db.messages).find? (fun x => x.id == mid) = some m
            rw [find?_updateFirst_of_disjoint
              (fun (x : MessageDoc) => x.id == mid)
              (fun (x : MessageDoc) => x.id == mid2)
              (fun (mm : MessageDoc) => { mm with deleted := true })
              (fun x => rfl) ?_ db.messages]
            · exact h
            · intro x hx
              have hx' : x.id = mid := by simpa using hx
              show (x.id == mid2) = false
              rw [hx']
              exact beq_eq_false_iff_ne.mpr (fun he => hmm he.symm)

/-- Claim C7: once a message is soft-deleted it is immutable — no chat
operation (HTTP send, socket send, edit, delete) changes or removes the
stored record (so it stays retrievable by id with its content, and
`deleted` is never unset); the sender's edit attempts are rejected with
HTTP 400 and no write; and the message never appears on a default
listing page. -/
theorem deleted_message_is_immutable (db db' : DB) (mid : OId)
    (m : MessageDoc) (caller reader : UserDoc) (nc : Option String)
    (mc : ModerationCall) (now lim off : Nat) (page : List MessageDoc)
    (hstep : ChatStep db db')
    (hfind : findMessage db mid = some m)
    (hdel : m.deleted = true) :
    findMessage db' mid = some m
    ∧ (caller.id = m.sender_id →
        edit_message db caller mid nc mc now =
          { response := .error 400, db := db, broadcasts := [] })
    ∧ (get_room_messages db reader m.room_id lim off = .ok page →
        m ∉ page) := by
  refine ⟨?_, ?_, ?_⟩
  · cases hstep with
    | http_send u rid content mc2 now2 nid =>
        exact send_message_preserves_find db u rid content mc2 now2 nid hfind
    | socket_send s rid content now2 nid =>
        exact handle_message_preserves_find db s rid content now2 nid hfind
    | edit u mid2 nc2 mc2 now2 =>
        exact edit_message_preserves_deleted_find db u mid2 nc2 mc2 now2
          hfind hdel
    | del u mid2 =>
        exact delete_message_preserves_deleted_find db u mid2 hfind hdel
  · intro hsender
    simp [edit_message, hfind, hsender, hdel]
  · intro hpage hin
    have hpe := get_room_messages_ok_eq db reader m.room_id lim off page hpage
    rw [hpe] at hin
    have h3 := page_mem_eligible hin
    simp [h3.2.2] at hdel

/-- Claim C7 witness: the immutability conjunction evaluated on the
concrete soft-deleted message `demoDeletedMessage` with a further delete
attempt as the step. -/
theorem deleted_message_is_immutable_witness :
    findMessage (delete_message demoDbDeleted demoAdmin 5).db 5 =
      some demoDeletedMessage
    ∧ (demoAdmin.id = demoDeletedMessage.sender_id →
        edit_message demoDbDeleted demoAdmin 5 (some "x") .classifierError 6 =
          { response := .error 400, db := demoDbDeleted, broadcasts := [] })
    ∧ (get_room_messages demoDbDeleted demoAdmin demoDeletedMessage.room_id
          50 0 = .ok [] →
        demoDeletedMessage ∉ ([] : List MessageDoc)) :=
  deleted_message_is_immutable demoDbDeleted _ 5 demoDeletedMessage demoAdmin
    demoAdmin (some "x") .classifierError 6 50 0 []
    (ChatStep.del demoDbDeleted demoAdmin 5) (by decide) (by decide)

/-- Claim C8: friend acceptance is symmetric.  When the receiver accepts
a pending request from a (distinct, existing) sender, the resulting
database lists the receiver in the sender's `friends` and the sender in
the receiver's `friends`. -/
theorem accept_friend_request_symmetric (db : DB) (caller : UserDoc)
    (request_id : OId) (req : FriendRequestDoc) (su ru : UserDoc)
    (hreq : findAcceptableRequest db request_id caller.id = some req)
    (hsu : findUser db req.sender_id = some su)
    (hru : findUser db caller.id = some ru)
    (hne : req.sender_id ≠ caller.id) :
    (accept_friend_request db caller request_id).1 =
      .ok "Friend request accepted successfully"
    ∧ ∃ su' ru' : UserDoc,
        findUser (accept_friend_request db caller request_id).2
          req.sender_id = some su'
        ∧ findUser (accept_friend_request db caller request_id).2
            caller.id = some ru'
        ∧ caller.id ∈ su'.friends ∧ req.sender_id ∈ ru'.friends := by
  have hok : accept_friend_request db caller request_id =
      (.ok "Friend request accepted successfully",
       { db with
           friend_requests := (updateFirst (fun r => r.id == request_id)
             (fun r => { r with status := FriendRequestStatus.accepted })
             db.friend_requests),
           users := (updateFirst (fun u => u.id == req.sender_id)
             (fun (u : UserDoc) =>
               { u with friends := addToSet u.friends caller.id })
             (updateFirst (fun u => u.id == caller.id)
               (fun (u : UserDoc) =>
                 { u with friends := addToSet u.friends req.sender_id })
               db.users)) }) := by
    unfold accept_friend_request
    rw [hreq]
  have hsu_pred : (su.id == req.sender_id) = true := by
    simpa using List.find?_some hsu
  have hru_pred : (ru.id == caller.id) = true := by
    simpa using List.find?_some hru
  have h1 : (updateFirst (fun u => u.id == caller.id)
      (fun (u : UserDoc) =>
        { u with friends := addToSet u.friends req.sender_id })
      db.users).find? (fun u => u.id == req.sender_id) = some su := by
    rw [find?_updateFirst_of_disjoint
      (fun (u : UserDoc) => u.id == req.sender_id)
      (fun (u : UserDoc) => u.id == caller.id)
      (fun (u : UserDoc) =>
        { u with friends := addToSet u.friends req.sender_id })
      (fun x => rfl) ?_ db.users]
    · exact hsu
    · intro x hx
      have hx' : x.id = req.sender_id := by simpa using hx
      show (x.id == caller.id) = false
      rw [hx']
      exact beq_eq_false_iff_ne.mpr hne
  have h2 : (updateFirst (fun u => u.id == req.sender_id)
      (fun (u : UserDoc) =>
        { u with friends := addToSet u.friends caller.id })
      (updateFirst (fun u => u.id == caller.id)
        (fun (u : UserDoc) =>
          { u with friends := addToSet u.friends req.sender_id })
        db.users)).find? (fun u => u.id == req.sender_id) =
      some { su with friends := addToSet su.friends caller.id } :=
    find?_updateFirst_of_stronger
      (fun (u : UserDoc) => u.id == req.sender_id)
      (fun (u : UserDoc) => u.id == req.sender_id)
      (fun (u : UserDoc) =>
        { u with friends := addToSet u.friends caller.id })
      (fun _ h => h) (fun x => rfl) h1 hsu_pred
  have h3 : (updateFirst (fun u => u.id == caller.id)
      (fun (u : UserDoc) =>
        { u with friends := addToSet u.friends req.sender_id })
      db.users).find? (fun u => u.id == caller.id) =
      some { ru with friends := addToSet ru.friends req.sender_id } :=
    find?_updateFirst_of_stronger
      (fun (u : UserDoc) => u.id == caller.id)
      (fun (u : UserDoc) => u.id == caller.id)
      (fun (u : UserDoc) =>
        { u with friends := addToSet u.friends req.sender_id })
      (fun _ h => h) (fun x => rfl) hru hru_pred
  have h4 : (updateFirst (fun u => u.id == req.sender_id)
      (fun (u : UserDoc) =>
        { u with friends := addToSet u.friends caller.id })
      (updateFirst (fun u => u.id == caller.id)
        (fun (u : UserDoc) =>
          { u with friends := addToSet u.friends req.sender_id })
        db.users)).find? (fun u => u.id == caller.id) =
      some { ru with friends := addToSet ru.friends req.sender_id } := by
    rw [find?_updateFirst_of_disjoint
      (fun (u : UserDoc) => u.id == caller.id)
      (fun (u : UserDoc) => u.id == req.sender_id)
      (fun (u : UserDoc) =>
        { u with friends := addToSet u.friends caller.id })
      (fun x => rfl) ?_ _]
    · exact h3
    · intro x hx
      have hx' : x.id = caller.id := by simpa using hx
      show (x.id == req.sender_id) = false
      rw [hx']
      exact beq_eq_false_iff_ne.mpr (fun he => hne he.symm)
  refine ⟨by rw [hok], ?_⟩
  refine ⟨{ su with friends := addToSet su.friends caller.id },
          { ru with friends := addToSet ru.friends req.sender_id },
          ?_, ?_, ?_, ?_⟩
  · rw [hok]
    exact h2
  · rw [hok]
    exact h4
  · exact mem_addToSet_self su.friends caller.id
  · exact mem_addToSet_self ru.friends req.sender_id

/-- Claim C8 witness: user 7 accepts the pending request from user 9 in
`demoDbFriend`; afterwards each lists the other as a friend. -/
theorem accept_friend_request_symmetric_witness :
    (accept_friend_request demoDbFriend demoAdmin 20).1 =
      .ok "Friend request accepted successfully"
    ∧ ∃ su' ru' : UserDoc,
        findUser (accept_friend_request demoDbFriend demoAdmin 20).2
          demoRequest.sender_id = some su'
        ∧ findUser (accept_friend_request demoDbFriend demoAdmin 20).2
            demoAdmin.id = some ru'
        ∧ demoAdmin.id ∈ su'.friends ∧ demoRequest.sender_id ∈ ru'.friends :=
  accept_friend_request_symmetric demoDbFriend demoAdmin 20 demoRequest
    strangerUser demoAdmin (by decide) (by decide) (by decide) (by decide)

/-- Claim C9: the classroom admin is always a member.  Creation returns
and stores a classroom whose `members` list is exactly `[admin]`; every
classroom operation preserves the admin-in-members invariant (in
particular `$pull` on leave never removes the admin because the admin's
leave request is rejected); and the admin's leave request itself fails
with HTTP 400 leaving the database unchanged. -/
theorem admin_always_in_members (db db' : DB) (caller : UserDoc)
    (cid : OId) (c : ClassroomDoc) (nm : String) (code : Nat)
    (ncid nrid : OId)
    (hinv : AdminInMembers db) (hstep : ClassroomStep db db')
    (hfind : findClassroom db cid = some c)
    (hadmin : caller.id = c.admin_id) :
    AdminInMembers db'
    ∧ (create_classroom db caller nm code ncid nrid).1 =
        .ok { id := ncid, admin_id := caller.id, members := [caller.id],
              invite_code := code, name := nm }
    ∧ leave_classroom db caller cid = (.error 400, db) := by
  refine ⟨?_, rfl, ?_⟩
  · cases hstep with
    | create u nm2 code2 cid2 rid2 =>
        intro x hx
        rcases List.mem_append.mp hx with h | h
        · exact hinv x h
        · rw [List.mem_singleton] at h
          subst h
          exact List.mem_singleton.mpr rfl
    | update u cid2 nm2 =>
        intro x hx
        unfold update_classroom at hx
        split at hx
        · exact hinv x hx
        · split at hx
          · exact hinv x hx
          · rcases mem_updateFirst hx with h | ⟨y, hy, rfl⟩
            · exact hinv x h
            · exact hinv y (List.mem_of_find?_eq_some hy)
    | join u code2 =>
        intro x hx
        unfold join_classroom at hx
        split at hx
        · exact hinv x hx
        · split at hx
          · exact hinv x hx
          · rcases mem_updateFirst hx with h | ⟨y, hy, rfl⟩
            · exact hinv x h
            · exact mem_addToSet_of_mem _ (hinv y (List.mem_of_find?_eq_some hy))
    | leave u cid2 =>
        intro x hx
        unfold leave_classroom at hx
        split at hx
        · exact hinv x hx
        next c2 hc2 =>
          split at hx
          · exact hinv x hx
          next hadm2 =>
            split at hx
            · exact hinv x hx
            · rcases mem_updateFirst hx with h | ⟨y, hy, rfl⟩
              · exact hinv x h
              · have hc2' : db.classrooms.find? (fun cc => cc.id == cid2) =
                    some c2 := hc2
                rw [hy] at hc2'
                injection hc2' with he
                subst he
                rw [List.mem_filter]
                refine ⟨hinv y (List.mem_of_find?_eq_some hy), ?_⟩
                have hne : y.admin_id ≠ u.id := fun he2 =>
                  hadm2 (by rw [he2]; exact beq_self_eq_true _)
                exact bne_iff_ne.mpr hne
    | add_member u cid2 target =>
        intro x hx
        unfold add_member_to_classroom at hx
        split at hx
        · exact hinv x hx
        · split at hx
          · exact hinv x hx
          · split at hx
            · exact hinv x hx
            · split at hx
              · exact hinv x hx
              · split at hx
                · exact hinv x hx
                · rcases mem_updateFirst hx with h | ⟨y, hy, rfl⟩
                  · exact hinv x h
                  · exact mem_addToSet_of_mem _
                      (hinv y (List.mem_of_find?_eq_some hy))
    | del u cid2 =>
        intro x hx
        unfold delete_classroom at hx
        split at hx
        · exact hinv x hx
        · split at hx
          · exact hinv x hx
          · exact hinv x (List.mem_of_mem_eraseP hx)
  · simp [leave_classroom, hfind, hadmin]

/-- Claim C9 witness: the invariant evaluated on `demoDb` across a
concrete join step (user 9 joins via the invite code), plus the creation
shape and the admin's rejected leave. -/
theorem admin_always_in_members_witness :
    AdminInMembers (join_classroom demoDb strangerUser 111).2
    ∧ (create_classroom demoDb demoAdmin "Physics" 222 10 11).1 =
        .ok { id := 10, admin_id := demoAdmin.id, members := [demoAdmin.id],
              invite_code := 222, name := "Physics" }
    ∧ leave_classroom demoDb demoAdmin 0 = (.error 400, demoDb) :=
  admin_always_in_members demoDb _ demoAdmin 0 demoClassroom "Physics" 222
    10 11 (by unfold AdminInMembers; decide)
    (ClassroomStep.join demoDb strangerUser 111) (by decide) (by decide)

end PeerLearn
